import Mathlib

/-!
Verification of the routing, gating and policy-enforcement core of a
DevOps automation platform (incident, infrastructure and pipeline agents
behind an intent-classifying orchestrator).

The embedding is shallow: external collaborators (the LLM reasoning
engine, the Kubernetes backend, the YAML parser) are modelled as inputs
to the deterministic core functions, which are translated from
`src/agents/infra_agent.py`, `src/agents/incident_agent.py`,
`src/agents/orchestrator.py` and `src/agents/pipeline_agent.py`.
Artifact texts are `List Char`; Python's substring operator `in` is
contiguous-infix occurrence; `str.lower` is modelled on the ASCII range
(the only range the policy patterns use).
-/

namespace DevOpsAI

/-- ASCII space character (code point 32). -/
def spaceChar : Char := Char.ofNat 32

/-- ASCII lower-casing of one character, modelling Python `str.lower`
on the ASCII range. -/
def lowerChar (c : Char) : Char :=
  if 65 ≤ c.toNat ∧ c.toNat ≤ 90 then Char.ofNat (c.toNat + 32) else c

/-- Lower-case a text, modelling `tf.lower()`. -/
def lowerText (t : List Char) : List Char := t.map lowerChar

/-- Python's substring test `needle in haystack`: contiguous occurrence. -/
def hasSub (p t : List Char) : Bool := decide (p <:+: t)

/-! ### Infrastructure agent (`infra_agent.py`): POLICIES and plan -/

/-- Pattern scanned by the `no_public_s3` rule. -/
def pubPat : List Char := ("public").toList

/-- Pattern whose presence satisfies the `no_public_s3` rule. -/
def blockPubPat : List Char := ("block_public").toList

/-- Pattern scanned by the `enforce_tagging` rule. -/
def tagsPat : List Char := ("tags").toList

/-- First pattern scanned by the `instance_size_limit` rule. -/
def x2Pat : List Char := ("2xlarge").toList

/-- Second pattern scanned by the `instance_size_limit` rule. -/
def x4Pat : List Char := ("4xlarge").toList

/-- First pattern accepted by the `encryption_required` rule. -/
def encPat : List Char := ("encrypted").toList

/-- Second pattern accepted by the `encryption_required` rule. -/
def kmsPat : List Char := ("kms").toList

/-- Storage marker scanned by the `encryption_required` rule. -/
def s3Pat : List Char := ("s3").toList

/-- `no_public_s3` check:
`"public" not in tf.lower() or "block_public" in tf.lower()`. -/
def noPublicS3Check (tf : List Char) : Bool :=
  !hasSub pubPat (lowerText tf) || hasSub blockPubPat (lowerText tf)

/-- `enforce_tagging` check: `"tags" in tf.lower()`. -/
def enforceTaggingCheck (tf : List Char) : Bool :=
  hasSub tagsPat (lowerText tf)

/-- `instance_size_limit` check, exactly as in the source:
`"2xlarge" not in tf or "4xlarge" not in tf` (a disjunction, applied to
the raw, un-lowered text). -/
def instanceSizeCheck (tf : List Char) : Bool :=
  !hasSub x2Pat tf || !hasSub x4Pat tf

/-- `encryption_required` check:
`"encrypted" in tf.lower() or "kms" in tf.lower() or "s3" not in tf.lower()`. -/
def encryptionRequiredCheck (tf : List Char) : Bool :=
  hasSub encPat (lowerText tf) || hasSub kmsPat (lowerText tf) ||
    !hasSub s3Pat (lowerText tf)

/-- One entry of the violations list produced by `_validate_policies`. -/
structure PolicyViolation where
  policy : String
  description : String
  severity : String
deriving DecidableEq

/-- Description string of `no_public_s3` in the POLICIES table. -/
def noPublicS3Descr : String := "S3 buckets must not have public access"

/-- Description string of `enforce_tagging` in the POLICIES table. -/
def enforceTaggingDescr : String := "All resources must have environment and owner tags"

/-- Description string of `instance_size_limit` in the POLICIES table. -/
def instanceSizeDescr : String := "EC2 instances must not exceed xlarge in non-prod"

/-- Description string of `encryption_required` in the POLICIES table. -/
def encryptionRequiredDescr : String := "Storage resources must have encryption enabled"

/-- `InfrastructureAgent._validate_policies`: evaluate the four POLICIES
in table order, skipping `instance_size_limit` when the environment is
`"production"`, and collect every failure. -/
def validatePolicies (tf : List Char) (environment : String) : List PolicyViolation :=
  (if noPublicS3Check tf then [] else
    [⟨"no_public_s3", noPublicS3Descr, "high"⟩]) ++
  (if enforceTaggingCheck tf then [] else
    [⟨"enforce_tagging", enforceTaggingDescr, "high"⟩]) ++
  (if environment = "production" then [] else
    if instanceSizeCheck tf then [] else
      [⟨"instance_size_limit", instanceSizeDescr, "high"⟩]) ++
  (if encryptionRequiredCheck tf then [] else
    [⟨"encryption_required", encryptionRequiredDescr, "high"⟩])

/-- The deterministic tail of `InfrastructureAgent.plan` (after the
reasoning engine returned the generated Terraform code `tf`): policy
check, approval flag and the advisory `would_apply` flag. The handler
performs no apply; this function mutates nothing. -/
structure PlanResult where
  approved : Bool
  violations : List PolicyViolation
  policiesChecked : Nat
  dryRun : Bool
  wouldApply : Bool
deriving DecidableEq

/-- `InfrastructureAgent.plan`, deterministic core: `approved` is
`len(violations) == 0`, `would_apply` is `approved and not dry_run`. -/
def planCore (tf : List Char) (environment : String) (dryRun : Bool) : PlanResult :=
  let v := validatePolicies tf environment
  { approved := v.isEmpty
    violations := v
    policiesChecked := 4
    dryRun := dryRun
    wouldApply := v.isEmpty && !dryRun }

/-- The evaluation of the three rules other than `instance_size_limit`,
in table order. Used (spec side) to state that environment
`"production"` skips exactly the size rule. -/
def validateNonSizePolicies (tf : List Char) : List PolicyViolation :=
  (if noPublicS3Check tf then [] else
    [⟨"no_public_s3", noPublicS3Descr, "high"⟩]) ++
  (if enforceTaggingCheck tf then [] else
    [⟨"enforce_tagging", enforceTaggingDescr, "high"⟩]) ++
  (if encryptionRequiredCheck tf then [] else
    [⟨"encryption_required", encryptionRequiredDescr, "high"⟩])

/-- Canonical passing indicator for `no_public_s3`, appended as a
separate space-led token. -/
def indBlockPub : List Char := (" block_public").toList

/-- Canonical passing indicator for `enforce_tagging`. -/
def indTags : List Char := (" tags").toList

/-- Canonical passing indicator for `encryption_required`. -/
def indEnc : List Char := (" encrypted").toList

/-- The three policy rules that an appended indicator can turn from
failing to passing (`instance_size_limit` fails only when both size
patterns already occur, which no appended text can undo). -/
inductive FixableRule where
  | noPublicS3
  | enforceTagging
  | encryptionRequired
deriving DecidableEq

/-- Canonical space-led passing indicator of a fixable rule. -/
def FixableRule.indicator : FixableRule → List Char
  | .noPublicS3 => indBlockPub
  | .enforceTagging => indTags
  | .encryptionRequired => indEnc

/-- Table name of a fixable rule. -/
def FixableRule.ruleName : FixableRule → String
  | .noPublicS3 => "no_public_s3"
  | .enforceTagging => "enforce_tagging"
  | .encryptionRequired => "encryption_required"

/-- Check function of a fixable rule. -/
def FixableRule.check : FixableRule → List Char → Bool
  | .noPublicS3 => noPublicS3Check
  | .enforceTagging => enforceTaggingCheck
  | .encryptionRequired => encryptionRequiredCheck

/-! ### Incident agent (`incident_agent.py`): analyze and the allowlist gate -/

/-- Pod health snapshot entry, as produced by `_get_pod_status`. -/
structure Pod where
  name : String
  ready : Bool
  restarts : Nat
deriving DecidableEq

/-- `unhealthy = [p for p in pod_status if not p.get("ready") or p.get("restarts", 0) > 3]`. -/
def unhealthyPods (pods : List Pod) : List Pod :=
  pods.filter (fun p => !p.ready || decide (p.restarts > 3))

/-- One entry of the `auto_executed` list (`{"action": ..., "result": ...}`). -/
structure ExecEntry where
  action : String
  result : String
deriving DecidableEq

/-- `SAFE_ACTIONS`: remediations eligible for unattended execution. -/
def SAFE_ACTIONS : List String := ["restart_pod", "scale_up_deployment"]

/-- Result string recorded when a proposed scale action lacks its
deployment-name parameter. -/
def scaleSkipMsg : String := "Requires deployment name — skipped"

/-- Result string of `_restart_pod` on success. -/
def restartMsg (pod : String) : String :=
  "Pod " ++ pod ++ " deleted — controller will recreate it"

/-- Name of `unhealthy[0]`, with a dummy default (only used under a
nonemptiness guard, mirroring the guarded `unhealthy[0]` access). -/
def headPodName : List Pod → String
  | [] => ""
  | p :: _ => p.name

/-- One iteration of the auto-execute loop of `IncidentAgent.analyze`:
`if action == "restart_pod" and unhealthy: ... elif action ==
"scale_up_deployment": ...`. The second component is the log of
`delete_pod` mutations issued to the cluster backend. -/
def processAction (a : String) (unhealthy : List Pod) : List ExecEntry × List String :=
  if a = "restart_pod" ∧ unhealthy ≠ [] then
    ([⟨a, restartMsg (headPodName unhealthy)⟩], [headPodName unhealthy])
  else if a = "scale_up_deployment" then
    ([⟨a, scaleSkipMsg⟩], [])
  else ([], [])

/-- The whole auto-execute loop over the proposed actions, in order. -/
def execActions (unhealthy : List Pod) : List String → List ExecEntry × List String
  | [] => ([], [])
  | a :: rest =>
    let r := processAction a unhealthy
    let rs := execActions unhealthy rest
    (r.1 ++ rs.1, r.2 ++ rs.2)

/-- Result envelope of `IncidentAgent.analyze`: the reasoning-engine
analysis (its proposed `safe_actions` echoed), the cluster-context
counts, the `auto_executed` list and the log of pods deleted on the
cluster backend. -/
structure AnalyzeResult where
  safeActions : List String
  totalPods : Nat
  unhealthyCount : Nat
  autoExecuted : List ExecEntry
  deletedPods : List String
deriving DecidableEq

/-- `IncidentAgent.analyze`, deterministic core. The reasoning engine's
proposal (`safeActions`) and the gathered pod snapshot (`pods`) are
inputs; the loop runs only when `severity == "high"` and the proposal
list is truthy (nonempty). -/
def analyze (severity : String) (safeActions : List String) (pods : List Pod) :
    AnalyzeResult :=
  let unhealthy := unhealthyPods pods
  let ex := if severity = "high" ∧ safeActions ≠ [] then
      execActions unhealthy safeActions
    else ([], [])
  { safeActions := safeActions
    totalPods := pods.length
    unhealthyCount := unhealthy.length
    autoExecuted := ex.1
    deletedPods := ex.2 }

/-- An `auto_executed` entry that records an actual cluster mutation:
the `restart_pod` branch. The `scale_up_deployment` entry records a
skip, not an execution. -/
def isExecutedEntry (e : ExecEntry) : Bool := !(e.result == scaleSkipMsg)

/-! ### Orchestrator (`orchestrator.py`): classification retry and routing -/

/-- ASCII whitespace, as stripped by Python `str.strip()`. -/
def isSpaceChar (c : Char) : Bool :=
  c.toNat = 32 || c.toNat = 9 || c.toNat = 10 || c.toNat = 13 ||
    c.toNat = 11 || c.toNat = 12

/-- `str.strip()` on a character list. -/
def trimChars (l : List Char) : List Char :=
  ((l.dropWhile isSpaceChar).reverse.dropWhile isSpaceChar).reverse

/-- `response.content.strip().lower()`: normalization applied to the
classifier's raw output. -/
def normalizeIntent (s : String) : String :=
  String.mk (lowerText (trimChars s.data))

/-- `stop_after_attempt(3)`: total attempt budget of the classifier. -/
def attemptsLimit : Nat := 3

/-- `wait_exponential(min=1, max=10)` after the given 1-based attempt:
an exponential schedule clamped into the interval from 1 to 10
time-units. -/
def waitExp (attempt : Nat) : Nat := max 1 (min (2 ^ attempt) 10)

/-- Trace of one `_classify_intent` invocation: the normalized intent
(`none` models `ClassificationUnavailable`, the failure surfaced after
the retry budget is exhausted), the number of attempts made against the
reasoning-engine client, and the backoff waits slept between attempts. -/
structure ClassifyTrace where
  intent : Option String
  attempts : Nat
  waits : List Nat
deriving DecidableEq

/-- The retry loop of `_classify_intent`. `oracle n` is the outcome of
the n-th (1-based) reasoning-engine call: `none` is any failure
(network error, malformed response, timeout), `some s` the raw reply. -/
def classifyAux (oracle : Nat → Option String) : Nat → Nat → ClassifyTrace
  | attempt, 0 => ⟨none, attempt - 1, []⟩
  | attempt, fuel + 1 =>
    match oracle attempt with
    | some s => ⟨some (normalizeIntent s), attempt, []⟩
    | none =>
      if attemptsLimit ≤ attempt then ⟨none, attempt, []⟩
      else
        let rest := classifyAux oracle (attempt + 1) fuel
        ⟨rest.intent, rest.attempts, waitExp attempt :: rest.waits⟩

/-- `_classify_intent`: up to `attemptsLimit` attempts starting at
attempt 1. -/
def classify (oracle : Nat → Option String) : ClassifyTrace :=
  classifyAux oracle 1 attemptsLimit

/-- The dispatch decision of `AgentOrchestrator.route`. -/
inductive RouteOutcome where
  | incident (text sev ns : String)
  | infrastructure (request environment : String) (dryRun : Bool)
  | pipeline (repo workflowContent : String)
  | unknown (intent : String) (supported : List String)
deriving DecidableEq

/-- The keys of the handlers table in `route`. -/
def supportedIntents : List String := ["incident", "infrastructure", "pipeline"]

/-- `AgentOrchestrator.route` after classification: look the intent up
in the handlers table (each handler bound with its default parameters)
and fall back to the structured error value. Total: it never raises. -/
def routeDispatch (text intent : String) : RouteOutcome :=
  if intent = "incident" then .incident text ("medium") ("default")
  else if intent = "infrastructure" then .infrastructure text ("staging") true
  else if intent = "pipeline" then .pipeline ("") text
  else .unknown intent supportedIntents

/-- Result-with-attempt-count of a handler operation that consults the
reasoning engine without any retry wrapper. -/
structure OneShot (α : Type) where
  result : Option α
  attempts : Nat
deriving DecidableEq

/-- `InfrastructureAgent.plan` seen from the engine boundary: exactly
one engine call; an engine failure fails the request (no retry). -/
def planRun (oracle : Nat → Option (List Char)) (environment : String)
    (dryRun : Bool) : OneShot PlanResult :=
  match oracle 1 with
  | none => ⟨none, 1⟩
  | some tf => ⟨some (planCore tf environment dryRun), 1⟩

/-- `IncidentAgent.analyze` seen from the engine boundary: exactly one
engine call; an engine failure fails the request (no retry). -/
def analyzeRun (oracle : Nat → Option (List String)) (severity : String)
    (pods : List Pod) : OneShot AnalyzeResult :=
  match oracle 1 with
  | none => ⟨none, 1⟩
  | some sa => ⟨some (analyze severity sa pods), 1⟩

/-! ### Pipeline agent (`pipeline_agent.py`): quick-win detection -/

/-- Per-job structural facts extracted by `_parse_workflow` (the YAML
parser itself is the external collaborator). -/
structure JobInfo where
  steps : Nat
  needs : List String
  hasCache : Bool
  hasMatrix : Bool
  hasArtifacts : Bool
deriving DecidableEq

/-- The analysis dict handed to `_detect_quick_wins`: the jobs in
declaration order and the `total_jobs` count. -/
structure WorkflowAnalysis where
  jobs : List (String × JobInfo)
  totalJobs : Nat
deriving DecidableEq

/-- The description of a quick-win suggestion, with its parameters
(modelling the f-string messages structurally). -/
inductive SuggestionDescr where
  | cachingFor (job : String)
  | splitJob (job : String) (steps : Nat)
  | artifactsFor (job : String)
  | alreadyParallel (independentJobs : List String)
deriving DecidableEq

/-- One quick-win suggestion record. -/
structure Suggestion where
  stype : String
  job : String
  impact : String
  descr : SuggestionDescr
deriving DecidableEq

/-- Recognizes the workflow-scope informational message noting that the
independent jobs already run in parallel. -/
def isAlreadyParallelDescr : SuggestionDescr → Bool
  | .alreadyParallel _ => true
  | _ => false

/-- The per-job rules of `_detect_quick_wins`, in source order. -/
def jobQuickWins (totalJobs : Nat) (name : String) (j : JobInfo) : List Suggestion :=
  (if !j.hasCache then
    [⟨"caching", name, "high", .cachingFor name⟩] else []) ++
  (if j.steps > 8 ∧ !j.hasMatrix then
    [⟨"parallelization", name, "medium", .splitJob name j.steps⟩] else []) ++
  (if !j.hasArtifacts ∧ totalJobs > 1 then
    [⟨"artifacts", name, "low", .artifactsFor name⟩] else [])

/-- `PipelineAgent._detect_quick_wins`: per-job rules over every job,
then the workflow-scope parallelization note when more than one job
declares no dependencies. -/
def detectQuickWins (a : WorkflowAnalysis) : List Suggestion :=
  (a.jobs.flatMap fun p => jobQuickWins a.totalJobs p.1 p.2) ++
  (let independent := (a.jobs.filter fun p => p.2.needs.isEmpty).map Prod.fst
   if independent.length > 1 then
     [⟨"parallelization", "workflow", "high", .alreadyParallel independent⟩]
   else [])

/-- `PipelineAgent.optimize` seen from the engine boundary: exactly one
engine call for the supplementary suggestions (modelled as opaque
blobs); an engine failure fails the request (no retry). On success the
result merges the deterministic quick wins with the engine suggestions
under the summary count, as the source does. -/
def optimizeRun (oracle : Nat → Option (List String)) (a : WorkflowAnalysis) :
    OneShot (List Suggestion × List String × Nat) :=
  match oracle 1 with
  | none => ⟨none, 1⟩
  | some ai => ⟨some (detectQuickWins a, ai, (detectQuickWins a).length + ai.length), 1⟩

/-! ### Helper lemmas: occurrence of a pattern in an appended text -/

/-- An occurrence of `p` in `t ++ s` lies in `t`, lies in `s`, or spans
the boundary (a nonempty suffix of `t` followed by a nonempty prefix of
`s`). -/
theorem isInfix_append_cases {α : Type} {p t s : List α} (h : p <:+: t ++ s) :
    p <:+: t ∨ p <:+: s ∨
      ∃ a b, p = a ++ b ∧ a ≠ [] ∧ b ≠ [] ∧ a <:+ t ∧ b <+: s := by
  obtain ⟨u, v, huv⟩ := h
  rw [List.append_assoc] at huv
  rcases List.append_eq_append_iff.mp huv with ⟨a, ht, hpv⟩ | ⟨c, hu, hs⟩
  · rcases List.append_eq_append_iff.mp hpv with ⟨b, hab, hv⟩ | ⟨c, hp, hsv⟩
    · exact Or.inl (List.infix_iff_prefix_suffix.mpr ⟨a, ⟨b, hab.symm⟩, ⟨u, ht.symm⟩⟩)
    · by_cases ha : a = []
      · subst ha
        simp only [List.nil_append] at hp
        subst hp
        exact Or.inr (Or.inl ⟨[], v, by simp [hsv]⟩)
      · by_cases hc : c = []
        · subst hc
          rw [List.append_nil] at hp
          subst hp
          exact Or.inl (List.IsSuffix.isInfix ⟨u, ht.symm⟩)
        · exact Or.inr (Or.inr ⟨a, c, hp, ha, hc, ⟨u, ht.symm⟩, ⟨v, hsv.symm⟩⟩)
  · refine Or.inr (Or.inl ⟨c, v, ?_⟩)
    rw [List.append_assoc]
    exact hs.symm

/-- A pattern without a space occurs in `t ++ (space :: r)` exactly when
it occurs in one of the two parts: no occurrence can span the boundary,
since a spanning occurrence would contain the space. -/
theorem infix_append_headSpace {p r t : List Char} (hp : spaceChar ∉ p) :
    p <:+: t ++ (spaceChar :: r) ↔ p <:+: t ∨ p <:+: spaceChar :: r := by
  constructor
  · intro h
    rcases isInfix_append_cases h with h | h | ⟨a, b, hab, ha, hb, hsuf, hpre⟩
    · exact Or.inl h
    · exact Or.inr h
    · exfalso
      apply hp
      rw [hab]
      refine List.mem_append.mpr (Or.inr ?_)
      cases b with
      | nil => exact absurd rfl hb
      | cons x xs =>
        obtain ⟨w, hw⟩ := hpre
        have hx : x = spaceChar := by
          have hw' : x :: (xs ++ w) = spaceChar :: r := hw
          exact (List.cons.injEq _ _ _ _ ▸ hw').1
        subst hx
        exact List.mem_cons_self _ _
  · rintro (h | h)
    · exact h.trans (List.IsPrefix.isInfix ⟨spaceChar :: r, rfl⟩)
    · exact h.trans (List.IsSuffix.isInfix ⟨t, rfl⟩)

/-- Boolean form of `infix_append_headSpace` for the embedded substring
test. -/
theorem hasSub_append_headSpace {p r : List Char} (t : List Char) (hp : spaceChar ∉ p) :
    hasSub p (t ++ (spaceChar :: r)) = (hasSub p t || hasSub p (spaceChar :: r)) := by
  simp only [hasSub]
  rw [Bool.eq_iff_iff]
  simp only [Bool.or_eq_true, decide_eq_true_eq]
  exact infix_append_headSpace hp

/-- Appending a space-led token that does not contain the pattern leaves
the substring test unchanged. -/
theorem hasSub_append_token_eq {p rest : List Char} (t : List Char) (hp : spaceChar ∉ p)
    (hne : hasSub p (spaceChar :: rest) = false) :
    hasSub p (t ++ (spaceChar :: rest)) = hasSub p t := by
  rw [hasSub_append_headSpace t hp, hne, Bool.or_false]

/-- Appending a space-led token that contains the pattern makes the
substring test true. -/
theorem hasSub_append_token_true {p rest : List Char} (t : List Char) (hp : spaceChar ∉ p)
    (hyes : hasSub p (spaceChar :: rest) = true) :
    hasSub p (t ++ (spaceChar :: rest)) = true := by
  rw [hasSub_append_headSpace t hp, hyes, Bool.or_true]

/-- Lower-casing distributes over appending. -/
theorem lowerText_append (t s : List Char) :
    lowerText (t ++ s) = lowerText t ++ lowerText s := by
  simp [lowerText]

/-- Effect of appending the `enforce_tagging` indicator on each check. -/
theorem checks_append_indTags (t : List Char) :
    noPublicS3Check (t ++ indTags) = noPublicS3Check t
  ∧ instanceSizeCheck (t ++ indTags) = instanceSizeCheck t
  ∧ encryptionRequiredCheck (t ++ indTags) = encryptionRequiredCheck t
  ∧ enforceTaggingCheck (t ++ indTags) = true := by
  have hl : lowerText (t ++ indTags) = lowerText t ++ (spaceChar :: ("tags").toList) := by
    rw [lowerText_append, show lowerText indTags = spaceChar :: ("tags").toList from by decide]
  have hraw : indTags = spaceChar :: ("tags").toList := by decide
  refine ⟨?_, ?_, ?_, ?_⟩
  · simp only [noPublicS3Check, hl]
    rw [@hasSub_append_token_eq pubPat (("tags").toList) (lowerText t) (by decide) (by decide),
        @hasSub_append_token_eq blockPubPat (("tags").toList) (lowerText t) (by decide) (by decide)]
  · simp only [instanceSizeCheck, hraw]
    rw [@hasSub_append_token_eq x2Pat (("tags").toList) t (by decide) (by decide),
        @hasSub_append_token_eq x4Pat (("tags").toList) t (by decide) (by decide)]
  · simp only [encryptionRequiredCheck, hl]
    rw [@hasSub_append_token_eq encPat (("tags").toList) (lowerText t) (by decide) (by decide),
        @hasSub_append_token_eq kmsPat (("tags").toList) (lowerText t) (by decide) (by decide),
        @hasSub_append_token_eq s3Pat (("tags").toList) (lowerText t) (by decide) (by decide)]
  · simp only [enforceTaggingCheck, hl]
    rw [@hasSub_append_token_true tagsPat (("tags").toList) (lowerText t) (by decide) (by decide)]

/-- Effect of appending the `no_public_s3` indicator on each check. -/
theorem checks_append_indBlockPub (t : List Char) :
    enforceTaggingCheck (t ++ indBlockPub) = enforceTaggingCheck t
  ∧ instanceSizeCheck (t ++ indBlockPub) = instanceSizeCheck t
  ∧ encryptionRequiredCheck (t ++ indBlockPub) = encryptionRequiredCheck t
  ∧ noPublicS3Check (t ++ indBlockPub) = true := by
  have hl : lowerText (t ++ indBlockPub)
      = lowerText t ++ (spaceChar :: ("block_public").toList) := by
    rw [lowerText_append,
        show lowerText indBlockPub = spaceChar :: ("block_public").toList from by decide]
  have hraw : indBlockPub = spaceChar :: ("block_public").toList := by decide
  refine ⟨?_, ?_, ?_, ?_⟩
  · simp only [enforceTaggingCheck, hl]
    rw [@hasSub_append_token_eq tagsPat (("block_public").toList) (lowerText t)
          (by decide) (by decide)]
  · simp only [instanceSizeCheck, hraw]
    rw [@hasSub_append_token_eq x2Pat (("block_public").toList) t (by decide) (by decide),
        @hasSub_append_token_eq x4Pat (("block_public").toList) t (by decide) (by decide)]
  · simp only [encryptionRequiredCheck, hl]
    rw [@hasSub_append_token_eq encPat (("block_public").toList) (lowerText t)
          (by decide) (by decide),
        @hasSub_append_token_eq kmsPat (("block_public").toList) (lowerText t)
          (by decide) (by decide),
        @hasSub_append_token_eq s3Pat (("block_public").toList) (lowerText t)
          (by decide) (by decide)]
  · simp only [noPublicS3Check, hl]
    rw [@hasSub_append_token_true blockPubPat (("block_public").toList) (lowerText t)
          (by decide) (by decide)]
    simp

/-- Effect of appending the `encryption_required` indicator on each check. -/
theorem checks_append_indEnc (t : List Char) :
    noPublicS3Check (t ++ indEnc) = noPublicS3Check t
  ∧ enforceTaggingCheck (t ++ indEnc) = enforceTaggingCheck t
  ∧ instanceSizeCheck (t ++ indEnc) = instanceSizeCheck t
  ∧ encryptionRequiredCheck (t ++ indEnc) = true := by
  have hl : lowerText (t ++ indEnc)
      = lowerText t ++ (spaceChar :: ("encrypted").toList) := by
    rw [lowerText_append,
        show lowerText indEnc = spaceChar :: ("encrypted").toList from by decide]
  have hraw : indEnc = spaceChar :: ("encrypted").toList := by decide
  refine ⟨?_, ?_, ?_, ?_⟩
  · simp only [noPublicS3Check, hl]
    rw [@hasSub_append_token_eq pubPat (("encrypted").toList) (lowerText t)
          (by decide) (by decide),
        @hasSub_append_token_eq blockPubPat (("encrypted").toList) (lowerText t)
          (by decide) (by decide)]
  · simp only [enforceTaggingCheck, hl]
    rw [@hasSub_append_token_eq tagsPat (("encrypted").toList) (lowerText t)
          (by decide) (by decide)]
  · simp only [instanceSizeCheck, hraw]
    rw [@hasSub_append_token_eq x2Pat (("encrypted").toList) t (by decide) (by decide),
        @hasSub_append_token_eq x4Pat (("encrypted").toList) t (by decide) (by decide)]
  · simp only [encryptionRequiredCheck, hl]
    rw [@hasSub_append_token_true encPat (("encrypted").toList) (lowerText t)
          (by decide) (by decide)]
    simp

/-- Appending the tagging indicator removes exactly the tagging
violation. -/
theorem validate_append_tags (t : List Char) (env : String)
    (hfail : enforceTaggingCheck t = false) :
    validatePolicies (t ++ indTags) env
      = (validatePolicies t env).filter (fun v => !(v.policy == "enforce_tagging")) := by
  obtain ⟨h1, h2, h3, h4⟩ := checks_append_indTags t
  by_cases henv : env = "production" <;>
    cases hnp : noPublicS3Check t <;>
    cases hins : instanceSizeCheck t <;>
    cases henc : encryptionRequiredCheck t <;>
      simp [validatePolicies, h1, h2, h3, h4, hfail, hnp, hins, henc, henv]

/-- Appending the public-access-block indicator removes exactly the
`no_public_s3` violation. -/
theorem validate_append_blockPub (t : List Char) (env : String)
    (hfail : noPublicS3Check t = false) :
    validatePolicies (t ++ indBlockPub) env
      = (validatePolicies t env).filter (fun v => !(v.policy == "no_public_s3")) := by
  obtain ⟨h1, h2, h3, h4⟩ := checks_append_indBlockPub t
  by_cases henv : env = "production" <;>
    cases htag : enforceTaggingCheck t <;>
    cases hins : instanceSizeCheck t <;>
    cases henc : encryptionRequiredCheck t <;>
      simp [validatePolicies, h1, h2, h3, h4, hfail, htag, hins, henc, henv]

/-- Appending the encryption indicator removes exactly the
`encryption_required` violation. -/
theorem validate_append_enc (t : List Char) (env : String)
    (hfail : encryptionRequiredCheck t = false) :
    validatePolicies (t ++ indEnc) env
      = (validatePolicies t env).filter (fun v => !(v.policy == "encryption_required")) := by
  obtain ⟨h1, h2, h3, h4⟩ := checks_append_indEnc t
  by_cases henv : env = "production" <;>
    cases hnp : noPublicS3Check t <;>
    cases htag : enforceTaggingCheck t <;>
    cases hins : instanceSizeCheck t <;>
      simp [validatePolicies, h1, h2, h3, h4, hfail, hnp, htag, hins, henv]

/-! ### Claim theorems: infrastructure policy engine -/

/-- C6: for every artifact, environment and dry-run flag, the
Infrastructure Handler's result has `approved` true exactly when the
violations list is empty, and `would_apply = approved AND NOT dry_run`;
the handler performs no apply (`planCore` is a pure function with no
mutation log). -/
theorem c6_plan_approved_would_apply (tf : List Char) (env : String) (d : Bool) :
    (planCore tf env d).approved = (planCore tf env d).violations.isEmpty
  ∧ (planCore tf env d).wouldApply = ((planCore tf env d).approved && !d) :=
  ⟨rfl, rfl⟩

/-- C7: for every artifact text, in environment `"production"` the
`instance_size_limit` rule is skipped entirely: the violations list
equals the evaluation of the other three rules alone, the size rule
never appears in it, and `approved` depends only on the other three
checks. -/
theorem c7_production_skips_size_rule (tf : List Char) (d : Bool) :
    validatePolicies tf ("production") = validateNonSizePolicies tf
  ∧ (validatePolicies tf ("production")).filter
      (fun v => v.policy == "instance_size_limit") = []
  ∧ (planCore tf ("production") d).approved
      = (noPublicS3Check tf && enforceTaggingCheck tf && encryptionRequiredCheck tf) := by
  cases h1 : noPublicS3Check tf <;> cases h2 : enforceTaggingCheck tf <;>
    cases h3 : encryptionRequiredCheck tf <;>
      simp [validatePolicies, validateNonSizePolicies, planCore, h1, h2, h3]

/-- C3 (code bug evaluation): in a non-production environment, an
artifact that contains `"2xlarge"` (but not `"4xlarge"`) passes the
`instance_size_limit` check and produces no size violation, because the
source tests `"2xlarge" not in tf or "4xlarge" not in tf` — a
disjunction where its own description (`"EC2 instances must not exceed
xlarge in non-prod"`) requires a conjunction. -/
theorem c3_size_rule_misses_2xlarge :
    hasSub x2Pat (("instance_type = t3.2xlarge").toList) = true
  ∧ hasSub x4Pat (("instance_type = t3.2xlarge").toList) = false
  ∧ instanceSizeCheck (("instance_type = t3.2xlarge").toList) = true
  ∧ (validatePolicies (("instance_type = t3.2xlarge").toList) ("staging")).filter
      (fun v => v.policy == "instance_size_limit") = [] := by
  decide

/-- C2 (code bug evaluation): with high severity, a proposed
`restart_pod` action and no unhealthy pod resolvable from the snapshot,
the incident result records nothing at all — the proposal is silently
dropped instead of being recorded as skipped for a missing required
parameter (the source has no fallback branch for `restart_pod` when
`unhealthy` is empty, unlike the skip record it keeps for
`scale_up_deployment`). -/
theorem c2_restart_without_unhealthy_dropped :
    unhealthyPods [⟨"web-1", true, 0⟩] = []
  ∧ (analyze ("high") ["restart_pod"] [⟨"web-1", true, 0⟩]).autoExecuted = []
  ∧ (analyze ("high") ["restart_pod"] [⟨"web-1", true, 0⟩]).deletedPods = [] := by
  decide

/-- C8 (counterexample): appending the passing indicator `"encrypted"`
for `encryption_required` to an artifact that fails exactly that rule
does not merely remove that rule from the violation list: the appended
text joins with the trailing `"2xlarg"` of the artifact and creates a
new `"2xlarge"` occurrence, so `instance_size_limit` newly fails. -/
theorem c8_counterexample :
    encryptionRequiredCheck (("s3 tags block_public 4xlarge 2xlarg").toList) = false
  ∧ encryptionRequiredCheck
      (("s3 tags block_public 4xlarge 2xlarg").toList ++ ("encrypted").toList) = true
  ∧ ¬ (validatePolicies
        (("s3 tags block_public 4xlarge 2xlarg").toList ++ ("encrypted").toList) ("staging")
      = (validatePolicies (("s3 tags block_public 4xlarge 2xlarg").toList) ("staging")).filter
          (fun v => !(v.policy == "encryption_required"))) := by
  decide

/-- C8 (amended): for each of the three rules `no_public_s3`,
`enforce_tagging` and `encryption_required`, appending that rule's
canonical passing indicator as a separate space-led token to an
artifact that fails the rule yields a violation list equal to the
original with exactly that rule removed, in every environment — no
other rule's outcome changes. (`instance_size_limit` is excluded: no
appended text can make a failing artifact pass it, and a bare indicator
can even create a new size violation, as the counterexample shows.) -/
theorem c8_append_token_indicator (R : FixableRule) (t : List Char) (env : String)
    (hfail : R.check t = false) :
    validatePolicies (t ++ R.indicator) env
      = (validatePolicies t env).filter (fun v => !(v.policy == R.ruleName)) := by
  cases R
  · exact validate_append_blockPub t env hfail
  · exact validate_append_tags t env hfail
  · exact validate_append_enc t env hfail

/-- C8 (witness): the amended statement applied to a concrete artifact
that fails `enforce_tagging`. -/
theorem c8_witness :
    FixableRule.check FixableRule.enforceTagging (("s3 kms bucket").toList) = false
  ∧ validatePolicies
      (("s3 kms bucket").toList ++ FixableRule.indicator FixableRule.enforceTagging)
      ("staging")
    = (validatePolicies (("s3 kms bucket").toList) ("staging")).filter
        (fun v => !(v.policy == FixableRule.ruleName FixableRule.enforceTagging)) :=
  ⟨by decide,
    c8_append_token_indicator FixableRule.enforceTagging (("s3 kms bucket").toList)
      ("staging") (by decide)⟩

/-! ### Claim theorems: incident agent and the allowlist gate -/

/-- Every entry of the auto-execute loop's output carries an allowlisted
action, and an entry recording an actual execution carries
`restart_pod`. -/
theorem execActions_entry_mem (unhealthy : List Pod) (actions : List String) :
    ∀ e ∈ (execActions unhealthy actions).1,
      e.action ∈ SAFE_ACTIONS ∧ (isExecutedEntry e = true → e.action = "restart_pod") := by
  induction actions with
  | nil =>
    intro e he
    simp [execActions] at he
  | cons a rest ih =>
    intro e he
    simp only [execActions, List.mem_append] at he
    rcases he with he | he
    · unfold processAction at he
      by_cases h1 : a = "restart_pod" ∧ unhealthy ≠ []
      · rw [if_pos h1] at he
        simp only [List.mem_singleton] at he
        subst he
        exact ⟨by rw [h1.1]; exact (by decide : ("restart_pod") ∈ SAFE_ACTIONS), fun _ => h1.1⟩
      · rw [if_neg h1] at he
        by_cases h2 : a = "scale_up_deployment"
        · rw [if_pos h2] at he
          simp only [List.mem_singleton] at he
          subst he
          refine ⟨by rw [h2]; exact (by decide : ("scale_up_deployment") ∈ SAFE_ACTIONS),
            fun hex => absurd hex ?_⟩
          simp [isExecutedEntry]
        · rw [if_neg h2] at he
          simp at he
    · exact ih e he

/-- C1 (amended): an action is auto-executed by the Incident Handler
only if the severity is `"high"` and its identifier is allowlisted; in
particular for every severity other than `"high"` the executed-actions
list and the mutation log are empty regardless of the proposals, and
every recorded entry (executed or skipped) carries an allowlisted
action proposed under high severity. -/
theorem c1_gate_only_if (severity : String) (safeActions : List String) (pods : List Pod) :
    (severity ≠ "high" →
      (analyze severity safeActions pods).autoExecuted = []
      ∧ (analyze severity safeActions pods).deletedPods = [])
  ∧ (∀ e ∈ (analyze severity safeActions pods).autoExecuted,
      severity = "high" ∧ e.action ∈ SAFE_ACTIONS
        ∧ (isExecutedEntry e = true → e.action = "restart_pod")) := by
  constructor
  · intro hs
    have hcond : ¬(severity = "high" ∧ safeActions ≠ []) := fun hh => hs hh.1
    simp [analyze, hcond]
  · intro e he
    simp only [analyze] at he
    by_cases hcond : severity = "high" ∧ safeActions ≠ []
    · rw [if_pos hcond] at he
      obtain ⟨hmem, hexec⟩ := execActions_entry_mem (unhealthyPods pods) safeActions e he
      exact ⟨hcond.1, hmem, hexec⟩
    · rw [if_neg hcond] at he
      simp at he

/-- C1 (counterexample to the stated iff): `scale_up_deployment` is
allowlisted and proposed under high severity with an unhealthy pod
present, yet nothing is executed — the entry records a skip (no
deployment name) and no cluster mutation happens, so gate approval does
not imply execution. -/
theorem c1_counterexample :
    (("scale_up_deployment") ∈ SAFE_ACTIONS)
  ∧ (analyze ("high") ["scale_up_deployment"] [⟨"web-1", false, 5⟩]).deletedPods = []
  ∧ (analyze ("high") ["scale_up_deployment"] [⟨"web-1", false, 5⟩]).autoExecuted.filter
      (fun e => isExecutedEntry e) = [] := by
  decide

/-- C1 (witness): the amended theorem applied at severity `"medium"`. -/
theorem c1_witness :
    (("medium" : String) ≠ "high")
  ∧ (analyze ("medium") ["restart_pod"] [⟨"web-1", false, 5⟩]).autoExecuted = [] :=
  ⟨by decide,
    ((c1_gate_only_if ("medium") ["restart_pod"] [⟨"web-1", false, 5⟩]).1 (by decide)).1⟩

/-! ### Claim theorems: orchestrator routing and classification retry -/

/-- C5: for every classified intent outside the supported set (the
classifier output, already trimmed and case-folded), `route` returns
the structured error value naming the supported categories as data; it
dispatches no specialist handler (the outcome is the `unknown`
constructor) and, being a total function, never raises. -/
theorem c5_unrecognized_intent_structured_error (raw text : String)
    (h : normalizeIntent raw ∉ supportedIntents) :
    routeDispatch text (normalizeIntent raw)
      = RouteOutcome.unknown (normalizeIntent raw) supportedIntents := by
  have h1 : ¬ normalizeIntent raw = "incident" := fun he => h (by rw [he]; decide)
  have h2 : ¬ normalizeIntent raw = "infrastructure" := fun he => h (by rw [he]; decide)
  have h3 : ¬ normalizeIntent raw = "pipeline" := fun he => h (by rw [he]; decide)
  simp [routeDispatch, h1, h2, h3]

/-- C5 (witness): a concrete unrecognized classifier reply. -/
theorem c5_witness :
    normalizeIntent ("  Deploy it  ") ∉ supportedIntents
  ∧ routeDispatch ("Deploy it") (normalizeIntent ("  Deploy it  "))
      = RouteOutcome.unknown (normalizeIntent ("  Deploy it  ")) supportedIntents :=
  ⟨by decide,
    c5_unrecognized_intent_structured_error ("  Deploy it  ") ("Deploy it") (by decide)⟩

/-- C10: the auto-routing entry point dispatches every
incident-classified request with severity `"medium"` and namespace
`"default"`, and consequently the incident analysis reached through
`route` auto-executes nothing: its executed-actions list and its
cluster-mutation log are empty for every proposal of the reasoning
engine and every pod snapshot. -/
theorem c10_route_never_auto_executes (intent text t2 sev ns : String)
    (actions : List String) (pods : List Pod)
    (h : routeDispatch text intent = RouteOutcome.incident t2 sev ns) :
    sev = "medium" ∧ ns = "default"
  ∧ (analyze sev actions pods).autoExecuted = []
  ∧ (analyze sev actions pods).deletedPods = [] := by
  unfold routeDispatch at h
  by_cases h1 : intent = "incident"
  · rw [if_pos h1] at h
    injection h with ha hb hc
    have hcond : ¬(sev = "high" ∧ actions ≠ []) := by
      rw [← hb]
      rintro ⟨hh, -⟩
      exact absurd hh (by decide)
    refine ⟨hb.symm, hc.symm, ?_, ?_⟩ <;> simp [analyze, hcond]
  · rw [if_neg h1] at h
    by_cases h2 : intent = "infrastructure"
    · rw [if_pos h2] at h
      exact RouteOutcome.noConfusion h
    · rw [if_neg h2] at h
      by_cases h3 : intent = "pipeline"
      · rw [if_pos h3] at h
        exact RouteOutcome.noConfusion h
      · rw [if_neg h3] at h
        exact RouteOutcome.noConfusion h

/-- C10 (witness): a concrete request routed as an incident. -/
theorem c10_witness :
    routeDispatch ("pods are crashing") ("incident")
      = RouteOutcome.incident ("pods are crashing") ("medium") ("default")
  ∧ (analyze ("medium") ["restart_pod", "scale_up_deployment"]
      [⟨"web-1", false, 5⟩]).autoExecuted = [] :=
  ⟨by decide,
    (c10_route_never_auto_executes ("incident") ("pods are crashing") ("pods are crashing")
      ("medium") ("default") ["restart_pod", "scale_up_deployment"]
      [⟨"web-1", false, 5⟩] (by decide)).2.2.1⟩

/-- The four possible executions of the classifier retry loop: success
on attempt 1, 2 or 3, or failure after exactly 3 attempts, with the
backoff waits slept in between. -/
theorem classify_cases (oracle : Nat → Option String) :
    (∃ s, oracle 1 = some s ∧ classify oracle = ⟨some (normalizeIntent s), 1, []⟩)
  ∨ (∃ s, oracle 1 = none ∧ oracle 2 = some s
      ∧ classify oracle = ⟨some (normalizeIntent s), 2, [2]⟩)
  ∨ (∃ s, oracle 1 = none ∧ oracle 2 = none ∧ oracle 3 = some s
      ∧ classify oracle = ⟨some (normalizeIntent s), 3, [2, 4]⟩)
  ∨ (oracle 1 = none ∧ oracle 2 = none ∧ oracle 3 = none
      ∧ classify oracle = ⟨none, 3, [2, 4]⟩) := by
  cases o1 : oracle 1 with
  | some s =>
    exact Or.inl ⟨s, rfl, by simp [classify, classifyAux, o1, attemptsLimit, waitExp]⟩
  | none =>
    cases o2 : oracle 2 with
    | some s =>
      exact Or.inr (Or.inl ⟨s, rfl, rfl,
        by simp [classify, classifyAux, o1, o2, attemptsLimit, waitExp]⟩)
    | none =>
      cases o3 : oracle 3 with
      | some s =>
        exact Or.inr (Or.inr (Or.inl ⟨s, rfl, rfl, rfl,
          by simp [classify, classifyAux, o1, o2, o3, attemptsLimit, waitExp]⟩))
      | none =>
        exact Or.inr (Or.inr (Or.inr ⟨rfl, rfl, rfl,
          by simp [classify, classifyAux, o1, o2, o3, attemptsLimit, waitExp]⟩))

/-- C4: the classifier makes at most 3 attempts against the reasoning
engine client, every backoff wait lies in the clamp interval from 1 to
10 time-units, a client failing twice then succeeding yields the
successful (normalized) result on the third attempt after waits of 2
and 4 time-units, a client always failing yields the unavailability
outcome after exactly 3 attempts, and the infrastructure and incident
operations, and the pipeline
operation, consult the client exactly once with no retry: a single
client failure fails them. -/
theorem c4_classifier_retry_policy (oracle : Nat → Option String) :
    (classify oracle).attempts ≤ 3
  ∧ (∀ w ∈ (classify oracle).waits, 1 ≤ w ∧ w ≤ 10)
  ∧ (∀ s, oracle 1 = none → oracle 2 = none → oracle 3 = some s →
      classify oracle = ⟨some (normalizeIntent s), 3, [2, 4]⟩)
  ∧ (oracle 1 = none → oracle 2 = none → oracle 3 = none →
      classify oracle = ⟨none, 3, [2, 4]⟩)
  ∧ (∀ (tfo : Nat → Option (List Char)) (env : String) (d : Bool),
      (planRun tfo env d).attempts = 1
      ∧ (tfo 1 = none → (planRun tfo env d).result = none))
  ∧ (∀ (sao : Nat → Option (List String)) (sev : String) (pods : List Pod),
      (analyzeRun sao sev pods).attempts = 1
      ∧ (sao 1 = none → (analyzeRun sao sev pods).result = none))
  ∧ (∀ (aio : Nat → Option (List String)) (wa : WorkflowAnalysis),
      (optimizeRun aio wa).attempts = 1
      ∧ (aio 1 = none → (optimizeRun aio wa).result = none)) := by
  refine ⟨?_, ?_, ?_, ?_, ?_, ?_, ?_⟩
  · rcases classify_cases oracle with ⟨s, -, hc⟩ | ⟨s, -, -, hc⟩ | ⟨s, -, -, -, hc⟩ |
      ⟨-, -, -, hc⟩ <;> rw [hc] <;> simp
  · intro w hw
    rcases classify_cases oracle with ⟨s, -, hc⟩ | ⟨s, -, -, hc⟩ | ⟨s, -, -, -, hc⟩ |
      ⟨-, -, -, hc⟩ <;> rw [hc] at hw <;> simp at hw <;> omega
  · intro s h1 h2 h3
    rcases classify_cases oracle with ⟨u, hu, hc⟩ | ⟨u, -, hu, hc⟩ | ⟨u, -, -, hu, hc⟩ |
      ⟨-, -, hu, hc⟩
    · rw [h1] at hu
      exact Option.noConfusion hu
    · rw [h2] at hu
      exact Option.noConfusion hu
    · rw [h3] at hu
      rw [Option.some.injEq] at hu
      rw [hu]
      exact hc
    · rw [h3] at hu
      exact Option.noConfusion hu
  · intro h1 h2 h3
    rcases classify_cases oracle with ⟨u, hu, hc⟩ | ⟨u, -, hu, hc⟩ | ⟨u, -, -, hu, hc⟩ |
      ⟨-, -, -, hc⟩
    · rw [h1] at hu
      exact Option.noConfusion hu
    · rw [h2] at hu
      exact Option.noConfusion hu
    · rw [h3] at hu
      exact Option.noConfusion hu
    · exact hc
  · intro tfo env d
    cases ho : tfo 1 <;> simp [planRun, ho]
  · intro sao sev pods
    cases ho : sao 1 <;> simp [analyzeRun, ho]
  · intro aio wa
    cases ho : aio 1 <;> simp [optimizeRun, ho]

/-- C4 (witness): a client failing on the first two attempts and
replying `" INCIDENT "` on the third: classification succeeds on
attempt 3 with the normalized intent and backoff waits 2 and 4. -/
theorem c4_witness :
    classify (fun i => if i < 3 then none else some (" INCIDENT "))
      = ⟨some ("incident"), 3, [2, 4]⟩ :=
  ((c4_classifier_retry_policy (fun i => if i < 3 then none else some (" INCIDENT "))).2.2.1
    (" INCIDENT ") (by decide) (by decide) (by decide)).trans (by decide)

/-! ### Claim theorems: pipeline quick-win detection -/

/-- The caching suggestions among one job's quick wins: exactly one
when the job has no caching step, none otherwise. -/
theorem filter_caching_jobQuickWins (tot : Nat) (name : String) (j : JobInfo) :
    (jobQuickWins tot name j).filter (fun s => s.stype == "caching")
      = if j.hasCache then [] else [⟨"caching", name, "high", .cachingFor name⟩] := by
  unfold jobQuickWins
  by_cases h2 : j.steps > 8 ∧ !j.hasMatrix <;>
    by_cases h3 : !j.hasArtifacts ∧ tot > 1 <;>
      cases h1 : j.hasCache <;>
        simp [h1, h2, h3] <;>
        first
          | (intro a hx hy ha; subst ha; simp)
          | (constructor <;> (intro a hx hy ha; subst ha; simp))

/-- No per-job quick win carries the workflow-scope already-parallel
message. -/
theorem filter_parallel_jobQuickWins (tot : Nat) (name : String) (j : JobInfo) :
    (jobQuickWins tot name j).filter (fun s => isAlreadyParallelDescr s.descr) = [] := by
  unfold jobQuickWins
  by_cases h2 : j.steps > 8 ∧ !j.hasMatrix <;>
    by_cases h3 : !j.hasArtifacts ∧ tot > 1 <;>
      cases h1 : j.hasCache <;>
        simp [h1, h2, h3, isAlreadyParallelDescr] <;>
        first
          | (intro a hx hy ha; subst ha; simp [isAlreadyParallelDescr])
          | (constructor <;> (intro a hx hy ha; subst ha; simp [isAlreadyParallelDescr]))

/-- C9: for every workflow of exactly two jobs, neither declaring
dependencies and neither having a caching step, the quick-win detector
emits exactly one high-impact caching suggestion per job (in job
order) and exactly one workflow-scope parallelization suggestion
noting that the two jobs already run in parallel. -/
theorem c9_two_independent_uncached_jobs (n1 n2 : String) (j1 j2 : JobInfo)
    (hne : n1 ≠ n2) (hd1 : j1.needs = []) (hd2 : j2.needs = [])
    (hc1 : j1.hasCache = false) (hc2 : j2.hasCache = false) :
    ((detectQuickWins ⟨[(n1, j1), (n2, j2)], 2⟩).filter (fun s => s.stype == "caching")
      = [⟨"caching", n1, "high", .cachingFor n1⟩, ⟨"caching", n2, "high", .cachingFor n2⟩])
  ∧ ((detectQuickWins ⟨[(n1, j1), (n2, j2)], 2⟩).filter
        (fun s => isAlreadyParallelDescr s.descr)
      = [⟨"parallelization", "workflow", "high", .alreadyParallel [n1, n2]⟩]) := by
  constructor
  · simp [detectQuickWins, filter_caching_jobQuickWins, hd1, hd2, hc1, hc2]
  · simp only [detectQuickWins, List.flatMap_cons, List.flatMap_nil, List.append_nil,
      List.filter_append]
    rw [filter_parallel_jobQuickWins, filter_parallel_jobQuickWins]
    simp [hd1, hd2, isAlreadyParallelDescr]

/-- C9 (witness): two concrete independent, uncached jobs. -/
theorem c9_witness :
    ((("build") : String) ≠ ("test"))
  ∧ ((detectQuickWins ⟨[(("build"), ⟨5, [], false, false, false⟩),
        (("test"), ⟨12, [], false, true, true⟩)], 2⟩).filter (fun s => s.stype == "caching")
      = [⟨"caching", ("build"), "high", .cachingFor ("build")⟩,
         ⟨"caching", ("test"), "high", .cachingFor ("test")⟩])
  ∧ ((detectQuickWins ⟨[(("build"), ⟨5, [], false, false, false⟩),
        (("test"), ⟨12, [], false, true, true⟩)], 2⟩).filter
          (fun s => isAlreadyParallelDescr s.descr)
      = [⟨"parallelization", "workflow", "high", .alreadyParallel [("build"), ("test")]⟩]) :=
  ⟨by decide,
    c9_two_independent_uncached_jobs ("build") ("test") ⟨5, [], false, false, false⟩
      ⟨12, [], false, true, true⟩ (by decide) rfl rfl rfl rfl⟩

end DevOpsAI
